import Mathlib

/-!
Verification development for the raycast-totochat repository: a shallow
embedding of the session-management shim (`copilot.ts`, here `part_001`),
the availability probe (`copilot-status.ts`, here `part_002`) and the
model partition used by the chat view (`toto-chat.tsx`).

Machine integers do not occur; billing multipliers are JS numbers and are
modelled as rationals.  Wall-clock timestamps and the opaque `randomUUID`
identifiers are modelled by a monotone counter threaded through the state.
Subprocess execution and filesystem probing are modelled by an environment
record of oracles; each probe function additionally returns the list of
commands it executed, so that "no subprocess was invoked" is expressible.
-/

namespace TotoChat

/-! ## Model partition (`isModelPremium`, `toto-chat.tsx`)

`ModelInfo.billing` is optional in the SDK, and inside it both the
`multiplier` and the (undocumented) `is_premium` field may be absent;
absence is `Option.none`. -/

structure Billing where
  multiplier : Option ℚ
  is_premium : Option Bool
  deriving Repr, DecidableEq

structure ModelInfo where
  id : String
  billing : Option Billing
  deriving Repr, DecidableEq

/-- `isModelPremium` from `part_001` lines 128–137: if the billing object
carries an `is_premium` field its value (compared with `=== true`) decides;
otherwise fall back to `(model.billing?.multiplier ?? 0) > 0`. -/
def isModelPremium (model : ModelInfo) : Bool :=
  match model.billing with
  | some billing =>
    match billing.is_premium with
    | some v => v
    | none => decide (0 < (billing.multiplier.getD 0))
  | none => decide (0 < ((Option.none : Option ℚ).getD 0))

/-- `freeModels` from `toto-chat.tsx` line 232. -/
def freeModels (models : List ModelInfo) : List ModelInfo :=
  models.filter (fun m => !isModelPremium m)

/-- `premiumModels` from `toto-chat.tsx` line 233. -/
def premiumModels (models : List ModelInfo) : List ModelInfo :=
  models.filter (fun m => isModelPremium m)

/-! ## Availability probe (`part_002`)

The environment record models the filesystem and subprocess oracles:
`pathEx p` is `existsSync p`, `configEx` is `existsSync ~/.copilot/config.json`,
and `exec cmd` is `execWithPath cmd`, returning `(stdout, stderr)` on a zero
exit and the thrown error message otherwise (node's `exec` rejects exactly
on a spawn failure or non-zero exit). -/

structure ProbeEnv where
  home : String
  pathEx : String → Bool
  configEx : Bool
  exec : String → Except String (String × String)

/-- `COPILOT_PATHS` from `part_002` lines 17–21. -/
def copilotPaths (home : String) : List String :=
  ["/opt/homebrew/bin/copilot", "/usr/local/bin/copilot", home ++ "/.local/bin/copilot"]

/-- `GH_PATHS` from `part_002` line 24. -/
def ghPaths (home : String) : List String :=
  ["/opt/homebrew/bin/gh", "/usr/local/bin/gh", home ++ "/.local/bin/gh"]

/-- `findExecutable` from `part_002` lines 29–36: the first candidate that
exists, else `none`. -/
def findExecutable (paths : List String) (ex : String → Bool) : Option String :=
  paths.find? ex

/-- `getCopilotPath` from `part_002` lines 41–43. -/
def getCopilotPath (env : ProbeEnv) : Option String :=
  findExecutable (copilotPaths env.home) env.pathEx

/-- `getGhPath` from `part_002` lines 48–50. -/
def getGhPath (env : ProbeEnv) : Option String :=
  findExecutable (ghPaths env.home) env.pathEx

structure InstallResult where
  installed : Bool
  version : Option String
  error : Option String
  deriving Repr, DecidableEq

structure LoginResult where
  loggedIn : Bool
  error : Option String
  deriving Repr, DecidableEq

structure CopilotStatus where
  isInstalled : Bool
  isLoggedIn : Bool
  version : Option String
  error : Option String
  deriving Repr, DecidableEq

/-- Character-list version of "does `pat` start `s`". -/
def startsWithL : List Char → List Char → Bool
  | [], _ => true
  | _ :: _, [] => false
  | p :: ps, c :: cs => p = c && startsWithL ps cs

/-- Character-list substring occurrence. -/
def occursInL (pat : List Char) : List Char → Bool
  | [] => pat.isEmpty
  | c :: cs => startsWithL pat (c :: cs) || occursInL pat cs

/-- `output.includes(pat)` on strings. -/
def strIncludes (s pat : String) : Bool :=
  occursInL pat.data s.data

/-- `isCopilotCliInstalled` from `part_002` lines 74–94.  The second
component is the list of commands handed to `execWithPath`. -/
def isCopilotCliInstalled (env : ProbeEnv) : InstallResult × List String :=
  match getCopilotPath env with
  | none =>
    ({ installed := false, version := none,
       error := some "Copilot CLI not found in common locations" }, [])
  | some copilotPath =>
    let cmd := "\"" ++ copilotPath ++ "\" --version"
    match env.exec cmd with
    | .ok (stdout, _) =>
      ({ installed := true, version := some stdout.trim, error := none }, [cmd])
    | .error e =>
      ({ installed := false, version := none, error := some e }, [cmd])

/-- `isCopilotLoggedIn` from `part_002` lines 100–134.  When `gh` is absent
the copilot config file decides; otherwise `gh auth status` is executed and
a zero exit yields `loggedIn = true` whether or not a marker string is
present, while a thrown error yields `loggedIn = false` with its message. -/
def isCopilotLoggedIn (env : ProbeEnv) : LoginResult × List String :=
  match getGhPath env with
  | none =>
    if env.configEx then ({ loggedIn := true, error := none }, [])
    else ({ loggedIn := false, error := some "GitHub CLI (gh) not found" }, [])
  | some ghPath =>
    let cmd := "\"" ++ ghPath ++ "\" auth status"
    match env.exec cmd with
    | .ok (stdout, stderr) =>
      let output := stdout ++ stderr
      if strIncludes output "Logged in" || strIncludes output "âœ“" then
        ({ loggedIn := true, error := none }, [cmd])
      else
        ({ loggedIn := true, error := none }, [cmd])
    | .error e =>
      ({ loggedIn := false, error := some e }, [cmd])

/-- `getCopilotStatus` from `part_002` lines 139–158.  The boolean records
whether the login check was invoked. -/
def getCopilotStatus (env : ProbeEnv) : CopilotStatus × Bool :=
  let installStatus := (isCopilotCliInstalled env).1
  if !installStatus.installed then
    ({ isInstalled := false, isLoggedIn := false, version := none,
       error := installStatus.error }, false)
  else
    let loginStatus := (isCopilotLoggedIn env).1
    ({ isInstalled := true, isLoggedIn := loginStatus.loggedIn,
       version := installStatus.version, error := loginStatus.error }, true)

/-! ## Session shim (`part_001`)

A `Message` mirrors the `Message` interface; the opaque `randomUUID`
identifier is modelled by a `Nat` drawn from the listener state's counter,
and the wall-clock timestamp is outside the embedding.  User messages carry
`isStreaming = false` (the source leaves the optional field undefined,
which is falsy everywhere it is read). -/

inductive Role where
  | user
  | assistant
  deriving Repr, DecidableEq

structure Message where
  id : Nat
  role : Role
  content : String
  isStreaming : Bool
  deriving Repr, DecidableEq

/-- The mutable closure state of `setupSessionEventListeners` together with
the `messages` array it shares with `createChatSession`/`resumeChatSession`:
`acc` is the `currentAssistantMessage` reference, modelled as an index into
`messages` (the source mutates the array element through the alias),
`lastDelta` is `lastDeltaContent`, `idleProcessed` the idle latch,
`isLoading` the listener's loading flag, and `nextId` the fresh-identifier
counter standing in for `randomUUID`. -/
structure LState where
  messages : List Message
  acc : Option Nat
  lastDelta : String
  idleProcessed : Bool
  isLoading : Bool
  nextId : Nat
  deriving Repr, DecidableEq

/-- The state at session creation: empty list, no in-progress message. -/
def initState : LState :=
  { messages := [], acc := none, lastDelta := "", idleProcessed := false,
    isLoading := false, nextId := 0 }

/-- The two SDK event kinds the listener handles; `messageDelta` carries
`event.data?.deltaContent || ""`. -/
inductive SEvent where
  | messageDelta (deltaContent : String)
  | sessionIdle
  deriving Repr, DecidableEq

/-- An `onUpdate` invocation: the copied message list and the loading flag. -/
abbrev Emit := List Message × Bool

/-- In-place update of the list element the accumulator aliases. -/
def modifyAt : List Message → Nat → (Message → Message) → List Message
  | [], _, _ => []
  | m :: rest, 0, f => f m :: rest
  | m :: rest, n + 1, f => m :: modifyAt rest n f

/-- The body of the `session.on` callback from `part_001` lines 177–222.
`activeId` is the module-global `currentSessionId`, `registeredId` the
`sessionId` captured by the closure; a mismatch drops the event.  Delta
events skip empty content, skip an exact duplicate of the previous delta
when an in-progress message exists, lazily create the in-progress assistant
message, append the delta and emit; idle events are latched by
`idleProcessed`, clear the streaming flag and the accumulator, reset
`lastDeltaContent` and emit with `isLoading = false`. -/
def handleSessionEvent (activeId registeredId : Nat) (s : LState) (e : SEvent) :
    LState × List Emit :=
  if activeId ≠ registeredId then (s, [])
  else
    match e with
    | .messageDelta deltaContent =>
      if deltaContent = "" then (s, [])
      else if deltaContent = s.lastDelta && s.acc.isSome then (s, [])
      else
        let (msgs, i, nid) :=
          match s.acc with
          | some i => (s.messages, i, s.nextId)
          | none =>
            (s.messages ++ [{ id := s.nextId, role := .assistant, content := "",
                              isStreaming := true }],
             s.messages.length, s.nextId + 1)
        let msgs := modifyAt msgs i (fun m => { m with content := m.content ++ deltaContent })
        ({ s with messages := msgs, acc := some i, lastDelta := deltaContent,
                  nextId := nid },
         [(msgs, s.isLoading)])
    | .sessionIdle =>
      if s.idleProcessed then (s, [])
      else
        let s := { s with idleProcessed := true }
        let s :=
          match s.acc with
          | some i =>
            { s with messages := modifyAt s.messages i (fun m => { m with isStreaming := false }),
                     acc := none }
          | none => s
        let s := { s with isLoading := false, lastDelta := "" }
        (s, [(s.messages, false)])

/-- The synchronous prefix of `sendMessage` (`part_001` lines 264–275 and
310–321): push the user message, set loading, `resetState()` (which clears
the accumulator, `lastDeltaContent` and the idle latch and sets the
listener's loading flag), then invoke `onUpdate` — all before the vendor
call is awaited. -/
def sendMessageStep (s : LState) (prompt : String) : LState × List Emit :=
  let userMessage : Message :=
    { id := s.nextId, role := .user, content := prompt, isStreaming := false }
  let s := { s with messages := s.messages ++ [userMessage], nextId := s.nextId + 1,
                    isLoading := true }
  let s := { s with acc := none, lastDelta := "", idleProcessed := false,
                    isLoading := true }
  (s, [(s.messages, true)])

/-- Full `sendMessage`: the synchronous prefix above, after which the vendor
`session.sendAndWait` settles; its outcome is propagated unchanged and the
local state change does not depend on it. -/
def sendMessage (s : LState) (prompt : String) (vendor : Except String Unit) :
    (LState × List Emit) × Except String Unit :=
  (sendMessageStep s prompt, vendor)

/-- Interleaved history events on the active session (the correlation
identifiers match). -/
inductive GEvent where
  | send (prompt : String)
  | sdk (e : SEvent)
  deriving Repr, DecidableEq

def stepG (s : LState) (g : GEvent) : LState :=
  match g with
  | .send p => (sendMessageStep s p).1
  | .sdk e => (handleSessionEvent 0 0 s e).1

def runG (s : LState) (gs : List GEvent) : LState :=
  gs.foldl stepG s

/-- Consecutive-duplicate collapse of a delta sequence, seeded with the
current `lastDeltaContent`. -/
def collapseRuns (last : String) : List String → List String
  | [] => []
  | d :: ds => if d = last then collapseRuns last ds else d :: collapseRuns d ds

/-- A delta event on the active session. -/
def deltaEvent (d : String) : GEvent :=
  .sdk (.messageDelta d)

/-- Concatenation of a list of fragments. -/
def concatS : List String → String
  | [] => ""
  | d :: ds => d ++ concatS ds

/-! ## Helper lemmas -/

theorem str_empty_append (s : String) : "" ++ s = s := by
  cases s; rfl

theorem length_modifyAt (l : List Message) (i : Nat) (f : Message → Message) :
    (modifyAt l i f).length = l.length := by
  induction l generalizing i with
  | nil => rfl
  | cons m rest ih => cases i <;> simp [modifyAt, ih]

theorem take_modifyAt (l : List Message) (i n : Nat) (f : Message → Message)
    (h : n ≤ i) : (modifyAt l i f).take n = l.take n := by
  induction l generalizing i n with
  | nil => rfl
  | cons m rest ih =>
    cases i with
    | zero =>
      have hn : n = 0 := Nat.le_zero.mp h
      subst hn
      simp
    | succ j =>
      cases n with
      | zero => simp
      | succ k => simp [modifyAt, ih j k (Nat.le_of_succ_le_succ h)]

theorem modifyAt_append (l : List Message) (x : Message) (f : Message → Message) :
    modifyAt (l ++ [x]) l.length f = l ++ [f x] := by
  induction l with
  | nil => rfl
  | cons m rest ih => simp [modifyAt, ih]

theorem idleProcessed_after_idle (s : LState) :
    (handleSessionEvent 0 0 s .sessionIdle).1.idleProcessed = true := by
  by_cases h : s.idleProcessed
  · simp [handleSessionEvent, h]
  · cases hacc : s.acc <;> simp [handleSessionEvent, h, hacc]

theorem idle_latched (s : LState) (h : s.idleProcessed = true) :
    handleSessionEvent 0 0 s .sessionIdle = (s, []) := by
  simp [handleSessionEvent, h]

/-! ## Claim theorems -/

/-- C4: `isCopilotLoggedIn` returns `loggedIn = true` whenever the
auth-status subprocess exits zero (whatever its output), returns
`loggedIn = false` with the error message exactly when the subprocess
throws or exits non-zero, and when the `gh` executable is absent from every
candidate path it returns `loggedIn = true` iff the local copilot config
file exists, else `loggedIn = false` with a "not found" reason, invoking no
subprocess. -/
theorem claim_C4 (env : ProbeEnv) :
    (∀ p stdout stderr, getGhPath env = some p →
      env.exec ("\"" ++ p ++ "\" auth status") = .ok (stdout, stderr) →
      isCopilotLoggedIn env =
        ({ loggedIn := true, error := none }, ["\"" ++ p ++ "\" auth status"]))
    ∧ (∀ p e, getGhPath env = some p →
      env.exec ("\"" ++ p ++ "\" auth status") = .error e →
      isCopilotLoggedIn env =
        ({ loggedIn := false, error := some e }, ["\"" ++ p ++ "\" auth status"]))
    ∧ ((∀ q ∈ ghPaths env.home, env.pathEx q = false) →
      isCopilotLoggedIn env =
        ((if env.configEx then { loggedIn := true, error := none }
          else { loggedIn := false, error := some "GitHub CLI (gh) not found" }), [])) := by
  refine ⟨?_, ?_, ?_⟩
  · intro p stdout stderr hp hexec
    simp only [isCopilotLoggedIn, hp, hexec]
    split <;> rfl
  · intro p e hp hexec
    simp only [isCopilotLoggedIn, hp, hexec]
  · intro habsent
    have hnone : getGhPath env = none := by
      simp only [getGhPath, findExecutable, List.find?_eq_none]
      intro q hq
      simp [habsent q hq]
    simp only [isCopilotLoggedIn, hnone]
    split <;> simp_all

/-- C4 witness: with no `gh` on any candidate path and the config file
present, the login check reports logged in with no subprocess invoked. -/
theorem claim_C4_witness :
    isCopilotLoggedIn
      { home := "/h", pathEx := fun _ => false, configEx := true,
        exec := fun _ => .ok ("", "") } =
      ({ loggedIn := true, error := none }, []) :=
  (claim_C4 _).2.2 (by decide)

/-- C8: when no candidate path for the copilot executable exists,
`isCopilotCliInstalled` reports not-installed with an explanatory reason
and executes no subprocess; when a candidate exists the version subcommand
is executed, reporting the trimmed version on success and the error message
on failure. -/
theorem claim_C8 (env : ProbeEnv) :
    ((∀ q ∈ copilotPaths env.home, env.pathEx q = false) →
      isCopilotCliInstalled env =
        ({ installed := false, version := none,
           error := some "Copilot CLI not found in common locations" }, []))
    ∧ ((∃ q ∈ copilotPaths env.home, env.pathEx q = true) →
      (getCopilotPath env).isSome = true)
    ∧ (∀ p stdout stderr, getCopilotPath env = some p →
      env.exec ("\"" ++ p ++ "\" --version") = .ok (stdout, stderr) →
      isCopilotCliInstalled env =
        ({ installed := true, version := some stdout.trim, error := none },
         ["\"" ++ p ++ "\" --version"]))
    ∧ (∀ p e, getCopilotPath env = some p →
      env.exec ("\"" ++ p ++ "\" --version") = .error e →
      isCopilotCliInstalled env =
        ({ installed := false, version := none, error := some e },
         ["\"" ++ p ++ "\" --version"])) := by
  refine ⟨?_, ?_, ?_, ?_⟩
  · intro habsent
    have hnone : getCopilotPath env = none := by
      simp only [getCopilotPath, findExecutable, List.find?_eq_none]
      intro q hq
      simp [habsent q hq]
    simp only [isCopilotCliInstalled, hnone]
  · intro hsome
    simpa only [getCopilotPath, findExecutable, List.find?_isSome] using hsome
  · intro p stdout stderr hp hexec
    simp only [isCopilotCliInstalled, hp, hexec]
  · intro p e hp hexec
    simp only [isCopilotCliInstalled, hp, hexec]

/-- C8 witness: with no candidate path present the probe reports
not-installed, names the reason and runs nothing. -/
theorem claim_C8_witness :
    isCopilotCliInstalled
      { home := "/h", pathEx := fun _ => false, configEx := false,
        exec := fun _ => .ok ("", "") } =
      ({ installed := false, version := none,
         error := some "Copilot CLI not found in common locations" }, []) :=
  (claim_C8 _).1 (by decide)

/-- C9: `getCopilotStatus` short-circuits: when the install check fails it
returns not-installed and not-logged-in with the install error and does not
invoke the login check (second component `false`); otherwise it returns the
version and the login check's outcome (second component `true`). -/
theorem claim_C9 (env : ProbeEnv) :
    ((isCopilotCliInstalled env).1.installed = false →
      getCopilotStatus env =
        ({ isInstalled := false, isLoggedIn := false, version := none,
           error := (isCopilotCliInstalled env).1.error }, false))
    ∧ ((isCopilotCliInstalled env).1.installed = true →
      getCopilotStatus env =
        ({ isInstalled := true, isLoggedIn := (isCopilotLoggedIn env).1.loggedIn,
           version := (isCopilotCliInstalled env).1.version,
           error := (isCopilotLoggedIn env).1.error }, true)) := by
  constructor
  · intro h
    simp only [getCopilotStatus, h]
    rfl
  · intro h
    simp only [getCopilotStatus, h]
    rfl

/-- C9 witness: at an environment with no copilot executable the install
check fails and the status short-circuits without the login check. -/
theorem claim_C9_witness :
    getCopilotStatus
      { home := "/h", pathEx := fun _ => false, configEx := false,
        exec := fun _ => .ok ("", "") } =
      ({ isInstalled := false, isLoggedIn := false, version := none,
         error := some "Copilot CLI not found in common locations" }, false) :=
  (claim_C9 _).1 (by decide)

/-- C6: an event whose registered correlation identifier differs from the
active one leaves the state unchanged and invokes no update callback. -/
theorem claim_C6 (activeId registeredId : Nat) (s : LState) (e : SEvent)
    (h : activeId ≠ registeredId) :
    handleSessionEvent activeId registeredId s e = (s, []) := by
  simp [handleSessionEvent, h]

/-- C6 witness: a concrete stale event is dropped. -/
theorem claim_C6_witness :
    handleSessionEvent 0 1 initState .sessionIdle = (initState, []) :=
  claim_C6 0 1 initState .sessionIdle (by decide)

/-- C7: `sendMessage` appends exactly one user message carrying the prompt,
sets loading, resets the streaming accumulator state (`acc`,
`lastDeltaContent`, the idle latch) and emits exactly one update with the
new list, and this local outcome is the same whatever the vendor call
returns; the vendor outcome is propagated unchanged. -/
theorem claim_C7 (s : LState) (prompt : String) (vendor : Except String Unit) :
    (sendMessage s prompt vendor).1.1.messages =
      s.messages ++ [{ id := s.nextId, role := .user, content := prompt,
                       isStreaming := false }]
    ∧ (sendMessage s prompt vendor).1.1.isLoading = true
    ∧ (sendMessage s prompt vendor).1.1.acc = none
    ∧ (sendMessage s prompt vendor).1.1.lastDelta = ""
    ∧ (sendMessage s prompt vendor).1.1.idleProcessed = false
    ∧ (sendMessage s prompt vendor).1.2 =
        [((sendMessage s prompt vendor).1.1.messages, true)]
    ∧ (sendMessage s prompt vendor).2 = vendor
    ∧ (∀ vendorOther, (sendMessage s prompt vendorOther).1 =
        (sendMessage s prompt vendor).1) := by
  refine ⟨rfl, rfl, rfl, rfl, rfl, rfl, rfl, fun _ => rfl⟩

/-- C5: idle handling is idempotent per response — a second consecutive
idle event changes nothing and emits nothing; the latch resets when a new
`sendMessage` begins, after which the next idle event is processed again
(exactly one emission, loading cleared, latch set). -/
theorem claim_C5 (s : LState) (p : String) :
    handleSessionEvent 0 0 (handleSessionEvent 0 0 s .sessionIdle).1 .sessionIdle =
      ((handleSessionEvent 0 0 s .sessionIdle).1, [])
    ∧ (sendMessageStep s p).1.idleProcessed = false
    ∧ (handleSessionEvent 0 0 (sendMessageStep s p).1 .sessionIdle).2.length = 1
    ∧ (handleSessionEvent 0 0 (sendMessageStep s p).1 .sessionIdle).1.isLoading = false
    ∧ (handleSessionEvent 0 0 (sendMessageStep s p).1 .sessionIdle).1.idleProcessed = true := by
  refine ⟨idle_latched _ (idleProcessed_after_idle s), rfl, ?_, ?_, ?_⟩ <;>
    simp [handleSessionEvent, sendMessageStep]

/-- C1 counterexample: with billing multipliers `[1, 1, 10]` and no
explicit `is_premium` flag, the code classifies the multiplier-1 models as
premium (`multiplier > 0`), so zero models are free and all three premium —
not two free and one premium as claimed. -/
theorem claim_C1_counterexample :
    isModelPremium
      { id := "a", billing := some { multiplier := some 1, is_premium := none } } = true
    ∧ (freeModels
        [{ id := "a", billing := some { multiplier := some 1, is_premium := none } },
         { id := "b", billing := some { multiplier := some 1, is_premium := none } },
         { id := "c", billing := some { multiplier := some 10, is_premium := none } }]).length = 0
    ∧ (premiumModels
        [{ id := "a", billing := some { multiplier := some 1, is_premium := none } },
         { id := "b", billing := some { multiplier := some 1, is_premium := none } },
         { id := "c", billing := some { multiplier := some 10, is_premium := none } }]).length = 3 := by
  refine ⟨rfl, rfl, rfl⟩

/-- C1 amended: an explicit `is_premium` flag decides the classification
regardless of the multiplier; without it a model is premium iff its
multiplier (defaulting to 0) is positive — so with multipliers `[1, 1, 10]`
and no flag, zero models are free and all three premium. -/
theorem claim_C1 :
    (∀ m b v, ModelInfo.billing m = some b → b.is_premium = some v →
      isModelPremium m = v)
    ∧ (∀ m b, ModelInfo.billing m = some b → b.is_premium = none →
      isModelPremium m = decide (0 < b.multiplier.getD 0))
    ∧ (∀ m, ModelInfo.billing m = none → isModelPremium m = false)
    ∧ (freeModels
        [{ id := "a", billing := some { multiplier := some 1, is_premium := none } },
         { id := "b", billing := some { multiplier := some 1, is_premium := none } },
         { id := "c", billing := some { multiplier := some 10, is_premium := none } }]).length = 0
    ∧ (premiumModels
        [{ id := "a", billing := some { multiplier := some 1, is_premium := none } },
         { id := "b", billing := some { multiplier := some 1, is_premium := none } },
         { id := "c", billing := some { multiplier := some 10, is_premium := none } }]).length = 3 := by
  refine ⟨?_, ?_, ?_, rfl, rfl⟩
  · intro m b v hb hv
    simp [isModelPremium, hb, hv]
  · intro m b hb hv
    simp [isModelPremium, hb, hv]
  · intro m hb
    simp [isModelPremium, hb]

/-- C1 witness: an explicit `is_premium := false` flag makes a
multiplier-10 model free. -/
theorem claim_C1_witness :
    isModelPremium
      { id := "w", billing := some { multiplier := some 10, is_premium := some false } } = false :=
  claim_C1.1 _ _ false rfl rfl

theorem stepG_keeps (n : Nat) (s : LState) (g : GEvent)
    (hacc : ∀ i, s.acc = some i → n ≤ i) (hlen : n ≤ s.messages.length) :
    (∀ i, (stepG s g).acc = some i → n ≤ i)
    ∧ n ≤ (stepG s g).messages.length
    ∧ (stepG s g).messages.take n = s.messages.take n := by
  cases g with
  | send p =>
    simp only [stepG, sendMessageStep]
    refine ⟨by simp, ?_, List.take_append_of_le_length hlen⟩
    simp only [List.length_append, List.length_cons, List.length_nil]
    omega
  | sdk e =>
    cases e with
    | messageDelta d =>
      by_cases hd : d = ""
      · have hs : stepG s (.sdk (.messageDelta d)) = s := by
          simp [stepG, handleSessionEvent, hd]
        rw [hs]
        exact ⟨hacc, hlen, rfl⟩
      by_cases hdup : d = s.lastDelta ∧ s.acc.isSome
      · have hs : stepG s (.sdk (.messageDelta d)) = s := by
          simp [stepG, handleSessionEvent, hd, hdup.1, hdup.2]
        rw [hs]
        exact ⟨hacc, hlen, rfl⟩
      cases hA : s.acc with
      | some i =>
        have hni : n ≤ i := hacc i hA
        have hdup' : ¬d = s.lastDelta := fun h => hdup ⟨h, by simp [hA]⟩
        simp only [stepG, handleSessionEvent, hA]
        simp only [hd, hdup', if_neg, ite_false, if_false]
        refine ⟨?_, ?_, ?_⟩
        · simp
          omega
        · simpa [length_modifyAt] using hlen
        · simpa using take_modifyAt s.messages i n _ hni
      | none =>
        simp only [stepG, handleSessionEvent, hA]
        simp only [hd, if_neg, ite_false, if_false, Option.isSome_none,
          Bool.and_false, Bool.false_eq_true]
        refine ⟨?_, ?_, ?_⟩
        · simp
          omega
        · simp [length_modifyAt]
          omega
        · rw [modifyAt_append]
          exact List.take_append_of_le_length hlen
    | sessionIdle =>
      by_cases h : s.idleProcessed
      · have hs : stepG s (.sdk .sessionIdle) = s := by
          simp [stepG, handleSessionEvent, h]
        rw [hs]
        exact ⟨hacc, hlen, rfl⟩
      cases hA : s.acc with
      | some i =>
        have hni : n ≤ i := hacc i hA
        simp only [stepG, handleSessionEvent, hA]
        simp only [h, ite_false, if_false, Bool.false_eq_true]
        refine ⟨by simp, ?_, ?_⟩
        · simpa [length_modifyAt] using hlen
        · simpa using take_modifyAt s.messages i n _ hni
      | none =>
        simp [stepG, handleSessionEvent, h, hA, hacc, hlen]

theorem runG_keeps (gs : List GEvent) (n : Nat) :
    ∀ (s : LState), (∀ i, s.acc = some i → n ≤ i) → n ≤ s.messages.length →
    (∀ i, (runG s gs).acc = some i → n ≤ i)
    ∧ n ≤ (runG s gs).messages.length
    ∧ (runG s gs).messages.take n = s.messages.take n := by
  induction gs with
  | nil => intro s hacc hlen; exact ⟨hacc, hlen, rfl⟩
  | cons g gs ih =>
    intro s hacc hlen
    obtain ⟨h1, h2, h3⟩ := stepG_keeps n s g hacc hlen
    obtain ⟨k1, k2, k3⟩ := ih (stepG s g) h1 h2
    exact ⟨k1, k2, by simpa [runG] using k3.trans h3⟩

/-- C3 counterexample: if a second `sendMessage` occurs with no intervening
idle event, the first assistant message's streaming flag is never cleared,
so after the trace `send "q1"; delta "a"; send "q2"; delta "b"` two
messages in the list carry `isStreaming = true` — refuting "at most one
streaming-flagged assistant message exists at any time". -/
theorem claim_C3_counterexample :
    ((runG initState
        [.send "q1", .sdk (.messageDelta "a"), .send "q2", .sdk (.messageDelta "b")]).messages.filter
      (fun m => m.isStreaming)).length = 2 := by
  decide

/-- C3 amended: at most one assistant message is open for extension at any
time (the single tracked accumulator, reset to `none` by every
`sendMessage`), and a new user message closes out the previous assistant
message: every message present in the list when a `sendMessage` completes —
in particular every assistant message created earlier — persists unchanged
through all later delta and idle events, so no later delta appends text to
it.  (The streaming flag of a message abandoned by a `sendMessage` without
an intervening idle event does remain set, so more than one
streaming-flagged message can appear in the list.) -/
theorem claim_C3 (s : LState) (p : String) (gs : List GEvent) :
    (sendMessageStep s p).1.acc = none
    ∧ (runG (sendMessageStep s p).1 gs).messages.take
        (sendMessageStep s p).1.messages.length = (sendMessageStep s p).1.messages := by
  refine ⟨rfl, ?_⟩
  obtain ⟨-, -, h⟩ :=
    runG_keeps gs (sendMessageStep s p).1.messages.length (sendMessageStep s p).1
      (fun i hi => by simp [sendMessageStep] at hi) le_rfl
  rw [h, List.take_length]

theorem runG_cons (s : LState) (g : GEvent) (gs : List GEvent) :
    runG s (g :: gs) = runG (stepG s g) gs := rfl

/-- While an in-progress assistant message exists (the accumulator points
at the final list entry), a run of delta events appends exactly the
consecutive-duplicate-collapsed concatenation of its non-empty contents. -/
theorem runDeltas_some (ds : List String) :
    ∀ (s : LState) (pre : List Message) (m : Message),
      s.messages = pre ++ [m] → s.acc = some pre.length →
      (runG s (ds.map deltaEvent)).messages =
        pre ++ [{ m with content :=
          m.content ++ concatS (collapseRuns s.lastDelta (ds.filter (fun d => !(d = "")))) }] := by
  induction ds with
  | nil =>
    intro s pre m hm _
    simpa [runG, collapseRuns, concatS, String.append_empty] using hm
  | cons d ds ih =>
    intro s pre m hm hA
    by_cases hd : d = ""
    · have hs : stepG s (deltaEvent d) = s := by
        simp [stepG, deltaEvent, handleSessionEvent, hd]
      rw [List.map_cons, runG_cons, hs, ih s pre m hm hA]
      simp [hd]
    · by_cases hdup : d = s.lastDelta
      · have hs : stepG s (deltaEvent d) = s := by
          simp [stepG, deltaEvent, handleSessionEvent, hd, hdup, hA]
        have hne : ¬s.lastDelta = "" := by
          rw [← hdup]; exact hd
        rw [List.map_cons, runG_cons, hs, ih s pre m hm hA]
        simp [hne, ← hdup, hd, collapseRuns]
      · have hstep : stepG s (deltaEvent d) =
            { s with messages := pre ++ [{ m with content := m.content ++ d }],
                     acc := some pre.length, lastDelta := d } := by
          simp only [stepG, deltaEvent, handleSessionEvent, hA, hm]
          simp [hd, hdup, modifyAt_append]
        rw [List.map_cons, runG_cons, hstep,
          ih _ pre { m with content := m.content ++ d } rfl rfl]
        simp [hd, collapseRuns, hdup, concatS, String.append_assoc]

/-- With no in-progress assistant message, a run of delta events leaves the
list unchanged when every delta is empty and otherwise appends exactly one
assistant message whose content is the collapsed concatenation of the
non-empty deltas. -/
theorem runDeltas_none (ds : List String) :
    ∀ (s : LState), s.acc = none →
      (runG s (ds.map deltaEvent)).messages =
        s.messages ++
          (if ds.filter (fun d => !(d = "")) = [] then []
           else [{ id := s.nextId, role := .assistant,
                   content := concatS (collapseRuns "" (ds.filter (fun d => !(d = "")))),
                   isStreaming := true }]) := by
  induction ds with
  | nil =>
    intro s _
    simp [runG]
  | cons d ds ih =>
    intro s hA
    by_cases hd : d = ""
    · have hs : stepG s (deltaEvent d) = s := by
        simp [stepG, deltaEvent, handleSessionEvent, hd]
      rw [List.map_cons, runG_cons, hs, ih s hA]
      simp [hd]
    · have hstep : stepG s (deltaEvent d) =
          { s with
            messages := s.messages ++
              [{ id := s.nextId, role := .assistant, content := "" ++ d,
                 isStreaming := true }],
            acc := some s.messages.length,
            lastDelta := d,
            nextId := s.nextId + 1 } := by
        simp only [stepG, deltaEvent, handleSessionEvent, hA]
        simp [hd, modifyAt_append]
      rw [List.map_cons, runG_cons, hstep,
        runDeltas_some ds _ s.messages _ rfl rfl]
      simp only [str_empty_append]
      have hfil : (d :: ds).filter (fun x => !(x = "")) =
          d :: ds.filter (fun x => !(x = "")) := by
        simp [hd]
      rw [hfil]
      have hcol : collapseRuns "" (d :: ds.filter (fun x => !(x = ""))) =
          d :: collapseRuns d (ds.filter (fun x => !(x = ""))) := by
        simp [collapseRuns, hd]
      rw [hcol]
      simp [concatS]

/-- C2: over a response, consecutive duplicate deltas are suppressed and
empty deltas ignored — after a `sendMessage` the delta events accumulate
into one assistant message whose content is the concatenation of the
non-empty delta contents with consecutive duplicates collapsed to their
first occurrence; in particular the deltas `["Hi", "Hi", " there"]` yield
the final content `"Hi there"`. -/
theorem claim_C2 (p : String) (ds : List String) :
    (runG initState (.send p :: ds.map deltaEvent)).messages.map Message.content =
      p :: (if ds.filter (fun d => !(d = "")) = [] then []
            else [concatS (collapseRuns "" (ds.filter (fun d => !(d = ""))))])
    ∧ (runG initState
        [.send "q", deltaEvent "Hi", deltaEvent "Hi", deltaEvent " there"]).messages.map
        Message.content = ["q", "Hi there"] := by
  constructor
  · rw [runG_cons, runDeltas_none ds _ rfl]
    by_cases h : ds.filter (fun d => !(d = "")) = []
    · simp [h, stepG, sendMessageStep, initState]
    · simp [h, stepG, sendMessageStep, initState]
  · decide

/-- C10: duplicate-delta suppression is scoped to a single response — a new
`sendMessage` clears the remembered last delta and the accumulator, a
processed idle event clears the remembered last delta, and when no
in-progress assistant message exists a non-empty delta is always appended
(never suppressed, even if equal to the remembered last delta); hence a
non-adjacent repeat within a response is appended (`["Hi", " x", "Hi"]`
gives `"Hi xHi"`) and a first delta equal to the previous response's final
delta is appended (the second response's content is again `"Hi"`). -/
theorem claim_C10 :
    (∀ (s : LState) (p : String),
      (sendMessageStep s p).1.lastDelta = "" ∧ (sendMessageStep s p).1.acc = none)
    ∧ (∀ s : LState, (handleSessionEvent 0 0 s .sessionIdle).1.lastDelta =
        (if s.idleProcessed then s.lastDelta else ""))
    ∧ (∀ (s : LState) (d : String), s.acc = none → ¬d = "" →
      (handleSessionEvent 0 0 s (.messageDelta d)).1.messages =
        s.messages ++ [{ id := s.nextId, role := .assistant, content := d,
                         isStreaming := true }])
    ∧ (runG initState
        [.send "q", deltaEvent "Hi", deltaEvent " x", deltaEvent "Hi"]).messages.map
        Message.content = ["q", "Hi xHi"]
    ∧ (runG initState
        [.send "q1", deltaEvent "Hi", .sdk .sessionIdle, .send "q2",
         deltaEvent "Hi"]).messages.map Message.content = ["q1", "Hi", "q2", "Hi"] := by
  refine ⟨fun s p => ⟨rfl, rfl⟩, ?_, ?_, by decide, by decide⟩
  · intro s
    by_cases h : s.idleProcessed
    · simp [handleSessionEvent, h]
    · cases hA : s.acc <;> simp [handleSessionEvent, h, hA]
  · intro s d hA hd
    simp only [handleSessionEvent, hA]
    simp [hd, modifyAt_append, str_empty_append]

/-- C10 witness: from the initial state (no in-progress message) a concrete
non-empty delta is appended as a fresh assistant message. -/
theorem claim_C10_witness :
    (handleSessionEvent 0 0 initState (.messageDelta "Hi")).1.messages =
      [{ id := 0, role := .assistant, content := "Hi", isStreaming := true }] :=
  claim_C10.2.2.1 initState "Hi" rfl (by decide)

end TotoChat
